import Mathlib

/-!
Verification of the translation app (`src/app/api/translate/route.ts` and
`src/app/page.tsx`): a shallow embedding of the proxy POST handler and of the
client state machine, plus theorems settling the specification's claims.
-/

/-! ### A model of the JavaScript string primitives used by the code -/

/-- Model of JavaScript `String.prototype.trim()`: drop whitespace from both ends. -/
def jsTrim (s : String) : String :=
  (((s.data.dropWhile Char.isWhitespace).reverse.dropWhile Char.isWhitespace).reverse).asString

/-- Whether the first list is an initial segment of the second (boolean, structural). -/
def startsWithChars : List Char → List Char → Bool
  | [], _ => true
  | _ :: _, [] => false
  | a :: as, b :: bs => a == b && startsWithChars as bs

/-- Whether `needle` occurs as a contiguous run inside the second list. -/
def hasSubChars (needle : List Char) : List Char → Bool
  | [] => needle.isEmpty
  | c :: cs => startsWithChars needle (c :: cs) || hasSubChars needle cs

/-- Model of JavaScript `hay.includes(needle)`. -/
def jsIncludes (hay needle : String) : Bool :=
  hasSubChars needle.data hay.data

/-- Model of the JavaScript truthiness test `!x` on an optional string:
`undefined`/absent and the empty string are falsy. -/
def falsy : Option String → Bool
  | none => true
  | some s => s = ""

/-- Model of JavaScript `x || d` on an optional string: the default is taken
when `x` is absent or the empty string. -/
def jsOrString : Option String → String → String
  | none, d => d
  | some s, d => if s = "" then d else s

/-! ### The proxy endpoint (`src/app/api/translate/route.ts`) -/

/-- JSON request body of `POST /api/translate`; each field may be absent. -/
structure TranslateRequest where
  text : Option String
  sourceLang : Option String
  targetLang : Option String
deriving DecidableEq

/-- JSON body of the proxy's response: either an error or a translation. -/
inductive ResponseBody where
  | errorBody (message : String)
  | translationBody (translation : String)
deriving DecidableEq

/-- HTTP response of the proxy: status code and JSON body. -/
structure HttpResponse where
  status : Nat
  body : ResponseBody
deriving DecidableEq

/-- Outcome of the outbound provider call: success carries the (possibly absent)
generated text `completion.choices[0]?.message?.content`; a thrown provider error
carries its optional `status` and `message` fields. -/
inductive ProviderResult where
  | ok (content : Option String)
  | err (status : Option Nat) (message : Option String)
deriving DecidableEq

/-- The static `languageNames` table of the route, mapping codes to display names. -/
def languageNames : List (String × String) :=
  [("pt", "Português"), ("en", "Inglês"), ("es", "Espanhol"), ("fr", "Francês"),
   ("de", "Alemão"), ("it", "Italiano"), ("ja", "Japonês"), ("ko", "Coreano"),
   ("zh", "Chinês"), ("ar", "Árabe"), ("ru", "Russo"), ("hi", "Hindi")]

/-- Model of `languageNames[code]` in the route. -/
def lookupLanguageName (code : String) : Option String :=
  languageNames.lookup code

/-- Model of JavaScript template-literal interpolation of a possibly undefined
value: `undefined` prints as the string "undefined". -/
def jsInterp : Option String → String
  | some s => s
  | none => "undefined"

/-- The prompt the route builds from the text and the two language codes. -/
def buildPrompt (text sourceLang targetLang : String) : String :=
  "Traduza o seguinte texto de " ++ jsInterp (lookupLanguageName sourceLang) ++
    " para " ++ jsInterp (lookupLanguageName targetLang) ++
    ". \nRetorne APENAS a tradução, sem explicações ou texto adicional.\n\nTexto: " ++ text

/-- Result of one proxy invocation: the HTTP response, and the prompt sent to the
external provider when a provider call was made (`none` means no call). -/
structure ProxyResult where
  response : HttpResponse
  providerPrompt : Option String
deriving DecidableEq

/-- The `POST` handler of `src/app/api/translate/route.ts`. `apiKey` is
`process.env.OPENAI_API_KEY`; `provider` is the outcome the external provider
would produce if called. -/
def POST (body : TranslateRequest) (apiKey : Option String) (provider : ProviderResult) :
    ProxyResult :=
  if falsy body.text || falsy body.sourceLang || falsy body.targetLang then
    { response := ⟨400, .errorBody "Parâmetros inválidos"⟩, providerPrompt := none }
  else if falsy apiKey then
    { response := ⟨500, .errorBody "Chave da OpenAI não configurada. Configure OPENAI_API_KEY nas variáveis de ambiente."⟩,
      providerPrompt := none }
  else
    let prompt := buildPrompt (body.text.getD "") (body.sourceLang.getD "") (body.targetLang.getD "")
    match provider with
    | .ok content =>
        { response := ⟨200, .translationBody ((content.map jsTrim).getD "")⟩,
          providerPrompt := some prompt }
    | .err st msg =>
        if st = some 401 ∨ jsIncludes (msg.getD "") "Incorrect API key" = true then
          { response := ⟨401, .errorBody "Chave da OpenAI inválida. Verifique sua configuração."⟩,
            providerPrompt := some prompt }
        else if st = some 429 then
          { response := ⟨429, .errorBody "Limite de uso da API atingido. Tente novamente mais tarde."⟩,
            providerPrompt := some prompt }
        else
          { response := ⟨500, .errorBody "Erro ao processar tradução. Tente novamente."⟩,
            providerPrompt := some prompt }

/-! ### The client (`src/app/page.tsx`) -/

/-- The `Translation` record of `page.tsx`. The source fields `from`/`to` are
named `fromLang`/`toLang` here because `from` is reserved in Lean; `timestamp`
(a `Date`) is modelled by the millisecond clock value. -/
structure Translation where
  id : String
  fromLang : String
  toLang : String
  original : String
  translated : String
  timestamp : Nat
deriving DecidableEq

/-- The client component's state: the `useState` hooks of `TranslatorApp`. -/
structure ClientState where
  sourceText : String
  translatedText : String
  sourceLang : String
  targetLang : String
  isTranslating : Bool
  history : List Translation
  showHistory : Bool
  copied : Bool
  apiError : Option String
deriving DecidableEq

/-- The initial state of the component (the `useState` initial values). -/
def initialState : ClientState :=
  { sourceText := "", translatedText := "", sourceLang := "pt", targetLang := "en",
    isTranslating := false, history := [], showHistory := false, copied := false,
    apiError := none }

/-- Observable outcome of the `fetch` to the proxy: a 2xx response with a
translation, a non-2xx response with an optional `error` field, or a thrown
network error. -/
inductive FetchOutcome where
  | success (translation : String)
  | httpError (errMsg : Option String)
  | networkThrew
deriving DecidableEq

/-- Result of one client operation: the new state, whether a network request was
issued, and the toast messages shown. -/
structure StepResult where
  state : ClientState
  requestIssued : Bool
  toasts : List String
deriving DecidableEq

/-- The record `handleTranslate` builds on success: `id` is
`Date.now().toString()`, modelled as the decimal representation of `now`. -/
def newTranslation (s : ClientState) (now : Nat) (t : String) : Translation :=
  { id := Nat.repr now, fromLang := s.sourceLang, toLang := s.targetLang,
    original := s.sourceText, translated := t, timestamp := now }

/-- The `handleTranslate` callback: early-return validation, then the `fetch`
with its three observable outcomes; `finally` clears the in-flight flag. -/
def handleTranslate (s : ClientState) (now : Nat) (outcome : FetchOutcome) : StepResult :=
  if jsTrim s.sourceText = "" then
    { state := s, requestIssued := false, toasts := ["Digite um texto para traduzir"] }
  else
    match outcome with
    | .success t =>
        { state := { s with
            translatedText := t,
            history := newTranslation s now t :: s.history.take 9,
            apiError := none,
            isTranslating := false },
          requestIssued := true,
          toasts := ["Tradução concluída!"] }
    | .httpError m =>
        { state := { s with
            apiError := some (jsOrString m "Erro ao traduzir"),
            isTranslating := false },
          requestIssued := true,
          toasts := [jsOrString m "Erro ao traduzir"] }
    | .networkThrew =>
        { state := { s with
            apiError := some "Erro ao conectar com o servidor. Tente novamente.",
            isTranslating := false },
          requestIssued := true,
          toasts := ["Erro ao conectar com o servidor. Tente novamente."] }

/-- The `swapLanguages` callback: all four setters read the pre-call state. -/
def swapLanguages (s : ClientState) : ClientState :=
  { s with
    sourceLang := s.targetLang,
    targetLang := s.sourceLang,
    sourceText := s.translatedText,
    translatedText := s.sourceText }

/-- The `loadFromHistory` callback. -/
def loadFromHistory (s : ClientState) (item : Translation) : ClientState :=
  { s with
    sourceLang := item.fromLang,
    targetLang := item.toLang,
    sourceText := item.original,
    translatedText := item.translated,
    showHistory := false }

/-- The user-triggered operations of the client component. -/
inductive ClientOp where
  | setSourceText (t : String)
  | setSourceLang (c : String)
  | setTargetLang (c : String)
  | translate (now : Nat) (outcome : FetchOutcome)
  | swap
  | load (item : Translation)
  | toggleHistory
  | copy
  | resetCopied
deriving DecidableEq

/-- One step of the client state machine. -/
def applyOp (s : ClientState) : ClientOp → StepResult
  | .setSourceText t => ⟨{ s with sourceText := t }, false, []⟩
  | .setSourceLang c => ⟨{ s with sourceLang := c }, false, []⟩
  | .setTargetLang c => ⟨{ s with targetLang := c }, false, []⟩
  | .translate now outcome => handleTranslate s now outcome
  | .swap => ⟨swapLanguages s, false, []⟩
  | .load item => ⟨loadFromHistory s item, false, ["Tradução carregada do histórico"]⟩
  | .toggleHistory => ⟨{ s with showHistory := !s.showHistory }, false, []⟩
  | .copy => ⟨{ s with copied := true }, false, ["Texto copiado!"]⟩
  | .resetCopied => ⟨{ s with copied := false }, false, []⟩

/-- The client states reachable from the initial state by user operations. -/
inductive Reachable : ClientState → Prop
  | init : Reachable initialState
  | step {s : ClientState} (op : ClientOp) : Reachable s → Reachable (applyOp s op).state

/-! ### Decimal representation: parsing inverse for `Nat.repr` -/

/-- Numeric value of a decimal digit character. -/
def digitVal (c : Char) : Nat := c.toNat - 48

/-- Decode a list of decimal digit characters, most significant first. -/
def decodeDigits (l : List Char) : Nat :=
  l.foldl (fun a c => 10 * a + digitVal c) 0

theorem digitVal_digitChar (k : Nat) (h : k < 10) : digitVal (Nat.digitChar k) = k := by
  interval_cases k <;> rfl

theorem toDigitsCore_append (f : Nat) : ∀ (n : Nat) (acc : List Char),
    Nat.toDigitsCore 10 f n acc = Nat.toDigitsCore 10 f n [] ++ acc := by
  induction f with
  | zero => intro n acc; simp [Nat.toDigitsCore]
  | succ f ih =>
    intro n acc
    simp only [Nat.toDigitsCore]
    by_cases h : n / 10 = 0
    · simp [h]
    · simp only [h, if_false]
      rw [ih (n / 10) (Nat.digitChar (n % 10) :: acc), ih (n / 10) [Nat.digitChar (n % 10)]]
      simp

theorem decodeDigits_append (l : List Char) (c : Char) :
    decodeDigits (l ++ [c]) = 10 * decodeDigits l + digitVal c := by
  simp [decodeDigits, List.foldl_append]

theorem decodeDigits_toDigitsCore (f : Nat) : ∀ n : Nat, n < f →
    decodeDigits (Nat.toDigitsCore 10 f n []) = n := by
  induction f with
  | zero => intro n h; omega
  | succ f ih =>
    intro n h
    simp only [Nat.toDigitsCore]
    by_cases h10 : n / 10 = 0
    · have hn : n < 10 := by omega
      simp only [h10, if_true, decodeDigits, List.foldl]
      rw [Nat.mul_zero, Nat.zero_add, digitVal_digitChar (n % 10) (Nat.mod_lt n (by decide))]
      omega
    · simp only [h10, if_false]
      rw [toDigitsCore_append, decodeDigits_append, ih (n / 10) (by omega),
        digitVal_digitChar (n % 10) (Nat.mod_lt n (by decide))]
      omega

theorem decodeDigits_repr (n : Nat) : decodeDigits (Nat.repr n).data = n := by
  show decodeDigits (Nat.toDigitsCore 10 (n + 1) n []) = n
  exact decodeDigits_toDigitsCore (n + 1) n (Nat.lt_succ_self n)

theorem natRepr_injective {m n : Nat} (h : Nat.repr m = Nat.repr n) : m = n := by
  have h2 := congrArg (fun s => decodeDigits s.data) h
  simpa [decodeDigits_repr] using h2

/-! ### Helper lemmas on the client state machine -/

theorem applyOp_history_length (s : ClientState) (op : ClientOp)
    (h : s.history.length ≤ 10) : (applyOp s op).state.history.length ≤ 10 := by
  cases op with
  | translate now outcome =>
    by_cases ht : jsTrim s.sourceText = ""
    · simpa [applyOp, handleTranslate, ht] using h
    · cases outcome with
      | success t =>
        simp [applyOp, handleTranslate, ht, List.length_take]
      | httpError m => simpa [applyOp, handleTranslate, ht] using h
      | networkThrew => simpa [applyOp, handleTranslate, ht] using h
  | setSourceText t => simpa [applyOp] using h
  | setSourceLang c => simpa [applyOp] using h
  | setTargetLang c => simpa [applyOp] using h
  | swap => simpa [applyOp, swapLanguages] using h
  | load item => simpa [applyOp, loadFromHistory] using h
  | toggleHistory => simpa [applyOp] using h
  | copy => simpa [applyOp] using h
  | resetCopied => simpa [applyOp] using h

/-! ### Claims about the proxy endpoint -/

/-- C1: for every request body in which any of the three fields `text`,
`sourceLang`, `targetLang` is missing or empty, the POST handler returns
HTTP 400 with an error body and makes no call to the external provider. -/
theorem C1_missing_field_400_no_provider_call (body : TranslateRequest)
    (apiKey : Option String) (provider : ProviderResult)
    (h : falsy body.text = true ∨ falsy body.sourceLang = true ∨ falsy body.targetLang = true) :
    POST body apiKey provider =
      { response := ⟨400, .errorBody "Parâmetros inválidos"⟩, providerPrompt := none } := by
  rcases h with h | h | h <;> simp [POST, h]

/-- Witness for C1: an empty `text` field is rejected with 400 and no provider call. -/
theorem C1_witness :
    (falsy (TranslateRequest.mk (some "") (some "pt") (some "en")).text = true ∨
      falsy (TranslateRequest.mk (some "") (some "pt") (some "en")).sourceLang = true ∨
      falsy (TranslateRequest.mk (some "") (some "pt") (some "en")).targetLang = true)
    ∧ POST (TranslateRequest.mk (some "") (some "pt") (some "en")) (some "sk-test")
        (.ok (some "Olá")) =
      { response := ⟨400, .errorBody "Parâmetros inválidos"⟩, providerPrompt := none } :=
  ⟨Or.inl (by decide),
    C1_missing_field_400_no_provider_call _ _ _ (Or.inl (by decide))⟩

/-- C5: on provider success the proxy returns HTTP 200 with the provider's
generated text trimmed of surrounding whitespace; an empty or missing provider
response yields `{ translation: "" }` with HTTP 200, not an error. -/
theorem C5_success_returns_trimmed_translation (body : TranslateRequest)
    (apiKey : Option String) (content : Option String)
    (hb : (falsy body.text || falsy body.sourceLang || falsy body.targetLang) = false)
    (hk : falsy apiKey = false) :
    (∀ t, content = some t →
      (POST body apiKey (.ok content)).response = ⟨200, .translationBody (jsTrim t)⟩)
    ∧ (content = none →
      (POST body apiKey (.ok content)).response = ⟨200, .translationBody ""⟩)
    ∧ (content = some "" →
      (POST body apiKey (.ok content)).response = ⟨200, .translationBody ""⟩) := by
  refine ⟨fun t ht => ?_, fun hc => ?_, fun hc => ?_⟩
  · subst ht; simp [POST, hb, hk]
  · subst hc; simp [POST, hb, hk]
  · subst hc; simp [POST, hb, hk]; rfl

/-- Witness for C5: a valid request with provider text "  Olá  " yields
HTTP 200 and the trimmed translation. -/
theorem C5_witness :
    ((falsy (TranslateRequest.mk (some "Hello") (some "en") (some "pt")).text ||
      falsy (TranslateRequest.mk (some "Hello") (some "en") (some "pt")).sourceLang ||
      falsy (TranslateRequest.mk (some "Hello") (some "en") (some "pt")).targetLang) = false)
    ∧ falsy (some "sk-test") = false
    ∧ (POST (TranslateRequest.mk (some "Hello") (some "en") (some "pt")) (some "sk-test")
        (.ok (some "  Olá  "))).response = ⟨200, .translationBody (jsTrim "  Olá  ")⟩
    ∧ jsTrim "  Olá  " = "Olá" :=
  ⟨by decide, by decide,
    (C5_success_returns_trimmed_translation _ _ _ (by decide) (by decide)).1 "  Olá  " rfl,
    by decide⟩

/-- C6: for every valid request body, if the provider credential is absent from
the process environment the proxy returns HTTP 500 with a misconfiguration
message and makes no call to the external provider. -/
theorem C6_missing_credential_500_no_call (body : TranslateRequest)
    (provider : ProviderResult)
    (hb : (falsy body.text || falsy body.sourceLang || falsy body.targetLang) = false) :
    POST body none provider =
      { response := ⟨500, .errorBody "Chave da OpenAI não configurada. Configure OPENAI_API_KEY nas variáveis de ambiente."⟩,
        providerPrompt := none } := by
  have hn : falsy none = true := rfl
  simp [POST, hb, hn]

/-- Witness for C6: a valid request with no configured key gets the 500
misconfiguration response and no provider call. -/
theorem C6_witness :
    ((falsy (TranslateRequest.mk (some "Hello") (some "en") (some "pt")).text ||
      falsy (TranslateRequest.mk (some "Hello") (some "en") (some "pt")).sourceLang ||
      falsy (TranslateRequest.mk (some "Hello") (some "en") (some "pt")).targetLang) = false)
    ∧ POST (TranslateRequest.mk (some "Hello") (some "en") (some "pt")) none (.ok (some "Olá")) =
      { response := ⟨500, .errorBody "Chave da OpenAI não configurada. Configure OPENAI_API_KEY nas variáveis de ambiente."⟩,
        providerPrompt := none } :=
  ⟨by decide, C6_missing_credential_500_no_call _ _ (by decide)⟩

/-- C2: a provider authentication failure (status 401 or an "Incorrect API key"
message) maps to HTTP 401, a rate/quota failure (status 429) to HTTP 429, and
any other provider failure to HTTP 500 with a generic message; all three
responses carry an `{ error: message }` body. -/
theorem C2_provider_error_status_mapping (body : TranslateRequest) (apiKey : Option String)
    (st : Option Nat) (msg : Option String)
    (hb : (falsy body.text || falsy body.sourceLang || falsy body.targetLang) = false)
    (hk : falsy apiKey = false) :
    ((st = some 401 ∨ jsIncludes (msg.getD "") "Incorrect API key" = true) →
      (POST body apiKey (.err st msg)).response =
        ⟨401, .errorBody "Chave da OpenAI inválida. Verifique sua configuração."⟩)
    ∧ (st = some 429 → jsIncludes (msg.getD "") "Incorrect API key" = false →
      (POST body apiKey (.err st msg)).response =
        ⟨429, .errorBody "Limite de uso da API atingido. Tente novamente mais tarde."⟩)
    ∧ (st ≠ some 401 → st ≠ some 429 → jsIncludes (msg.getD "") "Incorrect API key" = false →
      (POST body apiKey (.err st msg)).response =
        ⟨500, .errorBody "Erro ao processar tradução. Tente novamente."⟩) := by
  refine ⟨fun h => ?_, fun h429 hni => ?_, fun h401 h429 hni => ?_⟩
  · rcases h with h | h
    · subst h; simp [POST, hb, hk]
    · simp [POST, hb, hk, h]
  · subst h429; simp [POST, hb, hk, hni]
  · simp [POST, hb, hk, hni, h401, h429]

/-- Witness for C2: a provider error with status 401 on a valid request yields
the HTTP 401 invalid-key response. -/
theorem C2_witness :
    ((falsy (TranslateRequest.mk (some "Hello") (some "en") (some "pt")).text ||
      falsy (TranslateRequest.mk (some "Hello") (some "en") (some "pt")).sourceLang ||
      falsy (TranslateRequest.mk (some "Hello") (some "en") (some "pt")).targetLang) = false)
    ∧ falsy (some "sk-test") = false
    ∧ (some 401 = some 401 ∨ jsIncludes ((none : Option String).getD "") "Incorrect API key" = true)
    ∧ (POST (TranslateRequest.mk (some "Hello") (some "en") (some "pt")) (some "sk-test")
        (.err (some 401) none)).response =
      ⟨401, .errorBody "Chave da OpenAI inválida. Verifique sua configuração."⟩ :=
  ⟨by decide, by decide, Or.inl rfl,
    (C2_provider_error_status_mapping (TranslateRequest.mk (some "Hello") (some "en") (some "pt"))
      (some "sk-test") (some 401) none (by decide) (by decide)).1 (Or.inl rfl)⟩

/-- C8: a valid request whose `sourceLang` or `targetLang` is a non-empty code
absent from the static language table is not rejected: the proxy still builds
the prompt (interpolating "undefined" where the table lookup failed) and calls
the external provider. -/
theorem C8_unknown_code_passthrough (body : TranslateRequest) (apiKey : Option String)
    (provider : ProviderResult)
    (hb : (falsy body.text || falsy body.sourceLang || falsy body.targetLang) = false)
    (hk : falsy apiKey = false)
    (hcode : lookupLanguageName (body.sourceLang.getD "") = none ∨
      lookupLanguageName (body.targetLang.getD "") = none) :
    (POST body apiKey provider).providerPrompt =
      some (buildPrompt (body.text.getD "") (body.sourceLang.getD "") (body.targetLang.getD ""))
    ∧ (POST body apiKey provider).response.status ≠ 400
    ∧ (lookupLanguageName (body.sourceLang.getD "") = none →
        jsInterp (lookupLanguageName (body.sourceLang.getD "")) = "undefined")
    ∧ (lookupLanguageName (body.targetLang.getD "") = none →
        jsInterp (lookupLanguageName (body.targetLang.getD "")) = "undefined") := by
  refine ⟨?_, ?_, fun hsl => by rw [hsl]; rfl, fun htl => by rw [htl]; rfl⟩
  · cases provider with
    | ok content => simp [POST, hb, hk]
    | err st msg =>
      simp only [POST, hb, hk, Bool.false_eq_true, if_false]
      split_ifs <;> rfl
  · cases provider with
    | ok content => simp [POST, hb, hk]
    | err st msg =>
      simp only [POST, hb, hk, Bool.false_eq_true, if_false]
      split_ifs <;> simp

/-- Witness for C8: the unknown code "xx" as source language is passed through
to the provider with "undefined" interpolated in the prompt. -/
theorem C8_witness :
    ((falsy (TranslateRequest.mk (some "Hello") (some "xx") (some "pt")).text ||
      falsy (TranslateRequest.mk (some "Hello") (some "xx") (some "pt")).sourceLang ||
      falsy (TranslateRequest.mk (some "Hello") (some "xx") (some "pt")).targetLang) = false)
    ∧ falsy (some "sk-test") = false
    ∧ (lookupLanguageName ((some "xx" : Option String).getD "") = none ∨
        lookupLanguageName ((some "pt" : Option String).getD "") = none)
    ∧ ((POST (TranslateRequest.mk (some "Hello") (some "xx") (some "pt")) (some "sk-test")
          (.ok (some "Olá"))).providerPrompt =
        some (buildPrompt "Hello" "xx" "pt")
      ∧ (POST (TranslateRequest.mk (some "Hello") (some "xx") (some "pt")) (some "sk-test")
          (.ok (some "Olá"))).response.status ≠ 400) :=
  ⟨by decide, by decide, Or.inl (by decide),
    ((C8_unknown_code_passthrough (TranslateRequest.mk (some "Hello") (some "xx") (some "pt"))
        (some "sk-test") (.ok (some "Olá")) (by decide) (by decide) (Or.inl (by decide)))).1,
    ((C8_unknown_code_passthrough (TranslateRequest.mk (some "Hello") (some "xx") (some "pt"))
        (some "sk-test") (.ok (some "Olá")) (by decide) (by decide) (Or.inl (by decide)))).2.1⟩

/-! ### Claims about the client state machine -/

/-- C3: every reachable client state has at most 10 history entries, and a
successful translation inserts the new record at the front and truncates the
history beyond index 9. -/
theorem C3_history_bounded_and_front_insertion (s : ClientState) (h : Reachable s) :
    s.history.length ≤ 10
    ∧ ∀ now t, jsTrim s.sourceText ≠ "" →
        (handleTranslate s now (.success t)).state.history =
          newTranslation s now t :: s.history.take 9 := by
  constructor
  · induction h with
    | init => decide
    | step op hr ih => exact applyOp_history_length _ op ih
  · intro now t ht
    simp [handleTranslate, ht]

/-- Witness for C3: the reachable state after typing "Oi" has a bounded history
and a successful translation pushes the new record to the front. -/
theorem C3_witness :
    Reachable (applyOp initialState (.setSourceText "Oi")).state
    ∧ (applyOp initialState (.setSourceText "Oi")).state.history.length ≤ 10
    ∧ jsTrim (applyOp initialState (.setSourceText "Oi")).state.sourceText ≠ ""
    ∧ (handleTranslate (applyOp initialState (.setSourceText "Oi")).state 5
        (.success "Hi")).state.history =
      newTranslation (applyOp initialState (.setSourceText "Oi")).state 5 "Hi" ::
        (applyOp initialState (.setSourceText "Oi")).state.history.take 9 :=
  ⟨Reachable.step _ Reachable.init,
    (C3_history_bounded_and_front_insertion _ (Reachable.step _ Reachable.init)).1,
    by decide,
    (C3_history_bounded_and_front_insertion _ (Reachable.step _ Reachable.init)).2 5 "Hi"
      (by decide)⟩

/-- C4: `swapLanguages` exchanges the language codes and exchanges the text
buffers, is an involution on the client state, and issues no network request. -/
theorem C4_swap_involution_no_request (s : ClientState) :
    swapLanguages (swapLanguages s) = s
    ∧ (swapLanguages s).sourceLang = s.targetLang
    ∧ (swapLanguages s).targetLang = s.sourceLang
    ∧ (swapLanguages s).sourceText = s.translatedText
    ∧ (swapLanguages s).translatedText = s.sourceText
    ∧ (applyOp s .swap).state = swapLanguages s
    ∧ (applyOp s .swap).requestIssued = false := by
  refine ⟨?_, rfl, rfl, rfl, rfl, rfl, rfl⟩
  cases s
  rfl

/-- C7: when the source text trims to the empty string, `handleTranslate`
issues no request, surfaces the validation message, and leaves the entire
client state unchanged. -/
theorem C7_empty_text_no_request_state_unchanged (s : ClientState) (now : Nat)
    (outcome : FetchOutcome) (h : jsTrim s.sourceText = "") :
    handleTranslate s now outcome =
      { state := s, requestIssued := false, toasts := ["Digite um texto para traduzir"] } := by
  simp [handleTranslate, h]

/-- Witness for C7: in the initial state (empty source text) a translate attempt
changes nothing and shows the validation toast. -/
theorem C7_witness :
    jsTrim initialState.sourceText = ""
    ∧ handleTranslate initialState 0 .networkThrew =
      { state := initialState, requestIssued := false,
        toasts := ["Digite um texto para traduzir"] } :=
  ⟨by decide, C7_empty_text_no_request_state_unchanged _ _ _ (by decide)⟩

/-- C10: a failed translation (non-2xx proxy response or a thrown network call)
changes only the error message and the in-flight flag; the text buffers, the
language codes and the history are untouched. -/
theorem C10_failed_translate_frame (s : ClientState) (now : Nat) (m : Option String)
    (h : jsTrim s.sourceText ≠ "") :
    handleTranslate s now (.httpError m) =
      { state :=
          { s with
            apiError := some (jsOrString m "Erro ao traduzir"),
            isTranslating := false },
        requestIssued := true, toasts := [jsOrString m "Erro ao traduzir"] }
    ∧ handleTranslate s now .networkThrew =
      { state :=
          { s with
            apiError := some "Erro ao conectar com o servidor. Tente novamente.",
            isTranslating := false },
        requestIssued := true,
        toasts := ["Erro ao conectar com o servidor. Tente novamente."] } := by
  constructor <;> simp [handleTranslate, h]

/-- Witness for C10: with source text "Oi", a 500 proxy response only sets the
error message and clears the in-flight flag. -/
theorem C10_witness :
    jsTrim (ClientState.mk "Oi" "" "pt" "en" true [] false false none).sourceText ≠ ""
    ∧ handleTranslate (ClientState.mk "Oi" "" "pt" "en" true [] false false none) 7
        (.httpError (some "Erro ao processar tradução. Tente novamente.")) =
      { state :=
          { ClientState.mk "Oi" "" "pt" "en" true [] false false none with
            apiError :=
              some (jsOrString (some "Erro ao processar tradução. Tente novamente.")
                "Erro ao traduzir"),
            isTranslating := false },
        requestIssued := true,
        toasts := [jsOrString (some "Erro ao processar tradução. Tente novamente.")
          "Erro ao traduzir"] } :=
  ⟨by decide,
    (C10_failed_translate_frame (ClientState.mk "Oi" "" "pt" "en" true [] false false none) 7
      (some "Erro ao processar tradução. Tente novamente.") (by decide)).1⟩

/-- C9 counterexample: two successful translations within the same clock
millisecond (`Date.now()` value 1717171717 twice) insert two distinct records
into the history that carry the same id, refuting id uniqueness. -/
theorem C9_id_collision_counterexample :
    let s :=
      (applyOp (applyOp (applyOp (applyOp initialState
        (.setSourceText "Bom dia")).state
        (.translate 1717171717 (.success "Good morning"))).state
        (.setSourceText "Boa noite")).state
        (.translate 1717171717 (.success "Good night"))).state
    s.history.length = 2
    ∧ s.history.getD 0 (Translation.mk "" "" "" "" "" 0) ≠
        s.history.getD 1 (Translation.mk "" "" "" "" "" 0)
    ∧ (s.history.getD 0 (Translation.mk "" "" "" "" "" 0)).id =
        (s.history.getD 1 (Translation.mk "" "" "" "" "" 0)).id := by
  decide

/-- C9 amended: records are created only by a successful translation; the id of
a created record is the decimal representation of its creation time, so two
records created at distinct clock values have distinct ids (creations sharing a
millisecond share an id). -/
theorem C9_record_creation_and_id_of_timestamp (s s' : ClientState)
    (now now' : Nat) (t t' : String) (h : now ≠ now') :
    (∀ m, (handleTranslate s now (.httpError m)).state.history = s.history)
    ∧ (handleTranslate s now .networkThrew).state.history = s.history
    ∧ (∀ op : ClientOp, (∀ n oc, op ≠ .translate n oc) →
        (applyOp s op).state.history = s.history)
    ∧ (newTranslation s now t).id = Nat.repr now
    ∧ (newTranslation s now t).id ≠ (newTranslation s' now' t').id := by
  refine ⟨fun m => ?_, ?_, fun op hop => ?_, rfl, fun hid => ?_⟩
  · by_cases ht : jsTrim s.sourceText = "" <;> simp [handleTranslate, ht]
  · by_cases ht : jsTrim s.sourceText = "" <;> simp [handleTranslate, ht]
  · cases op with
    | translate n oc => exact absurd rfl (hop n oc)
    | setSourceText t => rfl
    | setSourceLang c => rfl
    | setTargetLang c => rfl
    | swap => rfl
    | load item => rfl
    | toggleHistory => rfl
    | copy => rfl
    | resetCopied => rfl
  · exact h (natRepr_injective hid)

/-- Witness for the amended C9: at clock values 1 and 2 the created records get
the distinct ids "1" and "2", and a failed translation creates no record. -/
theorem C9_witness :
    (1 : Nat) ≠ 2
    ∧ (handleTranslate initialState 1 (.httpError none)).state.history = initialState.history
    ∧ (newTranslation initialState 1 "x").id = Nat.repr 1
    ∧ (newTranslation initialState 1 "x").id ≠ (newTranslation initialState 2 "y").id :=
  ⟨by decide,
    (C9_record_creation_and_id_of_timestamp initialState initialState 1 2 "x" "y"
      (by decide)).1 none,
    (C9_record_creation_and_id_of_timestamp initialState initialState 1 2 "x" "y"
      (by decide)).2.2.2.1,
    (C9_record_creation_and_id_of_timestamp initialState initialState 1 2 "x" "y"
      (by decide)).2.2.2.2⟩
